import Mathlib

/-!
Shallow embedding of the resume-analyzer core
(src/resume_analyzer/app_clean.py) and proofs about its
specification claims.

Strings are modelled as lists of characters (PyStr).  Python semantics
modelled over the ASCII fragment the application exercises:
- str.lower  ->  mapping Char.toLower                         (lowerStr)
- re.search of a word-boundary-wrapped escaped literal        (wholeWordSearch)
  with the word class of ASCII alphanumerics and underscore
- str.split() on whitespace runs, empties dropped             (pysplit)
- difflib.get_close_matches(w, toks, n=1, cutoff=0.8) is nonempty
  iff some token has SequenceMatcher ratio >= 0.8 against w
  (the quick ratios are upper bounds of ratio, so only the final
  ratio test decides membership).  The Ratcliff-Obershelp ratio is
  2*M/(len a + len b) where M is the total size of the matching
  blocks; with the short strings involved no autojunk applies.
  ratio >= 0.8 is the exact rational test 2*(|a|+|b|) <= 5*M,
  faithful because the rationals involved are never close enough
  to 0.8 for double rounding to flip the comparison.
Numeric scores are modelled as rationals; the Python floats compute
the same real-number formulas up to rounding, and every claim is a
statement about those formulas.
-/

set_option maxRecDepth 100000

/-- A Python string, modelled as its list of characters. -/
abbrev PyStr := List Char

/-- Python str.lower on the ASCII fragment. -/
def lowerStr (s : PyStr) : PyStr := s.map Char.toLower

/-- Membership of the regex word class backslash-w (ASCII fragment):
letters, digits, underscore. -/
def wordChar (c : Char) : Bool := c.isAlphanum || c = '_'

/-- Whether position i of t holds a word character (out of range: no). -/
def wAt (t : PyStr) (i : Nat) : Bool :=
  match t.get? i with
  | some c => wordChar c
  | none => false

/-- The regex word-boundary assertion at position i of t
(positions 0 .. t.length): word-ness differs between the character
before the position and the character at it, with the outside of the
string counting as non-word. -/
def boundaryAt (t : PyStr) (i : Nat) : Bool :=
  (if i = 0 then false else wAt t (i - 1)) != wAt t i

/-- The escaped pattern pat, wrapped in word boundaries, matches t at
position i.  re.escape makes every pattern character literal. -/
def matchAt (t pat : PyStr) (i : Nat) : Bool :=
  ((t.drop i).take pat.length == pat) && boundaryAt t i && boundaryAt t (i + pat.length)

/-- re.search of backslash-b + re.escape(pat) + backslash-b in t:
some position of t begins a whole-word occurrence of pat. -/
def wholeWordSearch (t pat : PyStr) : Bool :=
  (List.range (t.length + 1)).any (fun i => matchAt t pat i)

/-- Helper for pysplit: accumulates the current (reversed) token. -/
def pysplitAux : PyStr → PyStr → List PyStr
  | [], acc => if acc.isEmpty then [] else [acc.reverse]
  | c :: cs, acc =>
    if c.isWhitespace then
      if acc.isEmpty then pysplitAux cs []
      else acc.reverse :: pysplitAux cs []
    else pysplitAux cs (c :: acc)

/-- Python str.split() with no argument: split on runs of whitespace,
dropping empty tokens. -/
def pysplit (s : PyStr) : List PyStr := pysplitAux s []

/-- Length of the longest common prefix of two character lists. -/
def commonRun : PyStr → PyStr → Nat
  | x :: xs, y :: ys => if x = y then commonRun xs ys + 1 else 0
  | _, _ => 0

/-- difflib SequenceMatcher.find_longest_match on the windows
[alo, ahi) of a and [blo, bhi) of b (no junk): the triple (i, j, k)
of a longest matching block, maximizing k, then minimizing i, then j,
exactly the scan order of the reference implementation. -/
def bestBlock (a b : PyStr) (alo ahi blo bhi : Nat) : Nat × Nat × Nat :=
  (List.range' alo (ahi - alo)).foldl (fun best i =>
    (List.range' blo (bhi - blo)).foldl (fun cur j =>
      let k := min (commonRun (a.drop i) (b.drop j)) (min (ahi - i) (bhi - j))
      if cur.2.2 < k then (i, j, k) else cur) best)
    (alo, blo, 0)

/-- Total size of the difflib matching blocks of a and b on the given
windows: recursively take the longest block and recurse left and right
of it.  The fuel only bounds the recursion depth; the initial fuel
a.length + 1 strictly exceeds every window size reached, so the
recursion always ends through the zero-size-block base case. -/
def mbTotal (a b : PyStr) : Nat → Nat → Nat → Nat → Nat → Nat
  | 0, _, _, _, _ => 0
  | fuel + 1, alo, ahi, blo, bhi =>
    let bl := bestBlock a b alo ahi blo bhi
    if bl.2.2 = 0 then 0
    else
      mbTotal a b fuel alo bl.1 blo bl.2.1 + bl.2.2 +
        mbTotal a b fuel (bl.1 + bl.2.2) ahi (bl.2.1 + bl.2.2) bhi

/-- SequenceMatcher(a := token, b := word).ratio() >= 0.8, as the exact
rational comparison 2*M/(|a|+|b|) >= 4/5. -/
def ratioGeCutoff (a b : PyStr) : Bool :=
  decide (2 * (a.length + b.length) ≤ 5 * mbTotal a b (a.length + 1) 0 a.length 0 b.length)

/-- get_close_matches(itemLc, text.split(), n=1, cutoff=0.8) is
nonempty: some whitespace token of text reaches ratio 0.8 against the
lowercased item. -/
def fuzzyOk (text itemLc : PyStr) : Bool :=
  (pysplit text).any (fun tok => ratioGeCutoff tok itemLc)

/-- The loop body of extract_items_from_text: walks the item list,
appending each item whose exact whole-word search succeeds, otherwise
each item whose fuzzy fallback finds a close token. -/
def extractLoop (text : PyStr) : List PyStr → List PyStr → List PyStr
  | [], found => found
  | item :: rest, found =>
    if wholeWordSearch text (lowerStr item) then extractLoop text rest (found ++ [item])
    else if fuzzyOk text (lowerStr item) then extractLoop text rest (found ++ [item])
    else extractLoop text rest found

/-- extract_items_from_text(text, item_list) from app_clean.py. -/
def extract_items_from_text (text : PyStr) (item_list : List PyStr) : List PyStr :=
  extractLoop text item_list []

/-- calculate_match(extracted, required) from app_clean.py:
len(set(extracted) & set(required)) / len(required) * 100, and 0 when
required is empty.  The distinct-common-element count is the
deduplicated filter of extracted by membership in required. -/
def calculate_match (extracted required : List PyStr) : ℚ :=
  if required = [] then 0
  else (((extracted.filter (fun x => decide (x ∈ required))).dedup.length : ℚ) /
    (required.length : ℚ)) * 100

/-- The fixed sentinel suggestion of top_3_suggestions. -/
def sentinelMsg : PyStr := "No suggestions, resume is strong!".toList

/-- top_3_suggestions(missing_skills, missing_tools, missing_certs)
from app_clean.py: first three of the concatenation, or the sentinel
when the concatenation is empty. -/
def top_3_suggestions (missing_skills missing_tools missing_certs : List PyStr) : List PyStr :=
  let suggestions := missing_skills ++ missing_tools ++ missing_certs
  if suggestions = [] then [sentinelMsg] else suggestions.take 3

/-- The missing-item comprehensions of main (app_clean.py lines
145-147): the required items not present in the found list, in
required order. -/
def missing_items (found required : List PyStr) : List PyStr :=
  required.filter (fun s => decide (s ∉ found))

/-- The overall weighted score of main (app_clean.py line 134). -/
def overall_score (skill tool cert semantic : ℚ) : ℚ :=
  0.4 * skill + 0.2 * tool + 0.1 * cert + 0.3 * semantic

/-- The three verdict labels of the verdict section of main. -/
inductive Verdict where
  | excellent
  | moderate
  | weak
deriving DecidableEq

/-- The verdict branch of main (app_clean.py lines 164-169). -/
def verdict (x : ℚ) : Verdict :=
  if 80 ≤ x then .excellent else if 60 ≤ x then .moderate else .weak

/-- A role profile of the catalog: the three requirement lists. -/
structure RoleProfile where
  skills : List PyStr
  tools : List PyStr
  certifications : List PyStr
deriving DecidableEq

/-- The Data Scientist entry of JOB_ROLE_DATA (app_clean.py lines 15-19). -/
def dataScientistProfile : RoleProfile where
  skills := ["Python".toList, "R".toList, "SQL".toList, "Machine Learning".toList,
    "Deep Learning".toList, "Statistics".toList, "Data Visualization".toList]
  tools := ["Pandas".toList, "NumPy".toList, "Scikit-learn".toList, "TensorFlow".toList,
    "Matplotlib".toList]
  certifications := ["IBM Data Science Professional Certificate".toList,
    "Google Data Analytics Certificate".toList]

/-- The JOB_ROLE_DATA catalog (app_clean.py lines 14-70). -/
def JOB_ROLE_DATA : List (String × RoleProfile) := [
  ("Data Scientist", dataScientistProfile),
  ("Web Developer", ⟨["HTML".toList, "CSS".toList, "JavaScript".toList, "React".toList,
    "Node.js".toList, "REST APIs".toList, "Responsive Design".toList],
   ["VS Code".toList, "Chrome DevTools".toList, "Git".toList, "Webpack".toList],
   ["Meta Front-End Developer".toList, "freeCodeCamp Responsive Web Design".toList]⟩),
  ("AI Engineer", ⟨["Python".toList, "TensorFlow".toList, "PyTorch".toList,
    "Computer Vision".toList, "NLP".toList, "Model Deployment".toList],
   ["TensorFlow".toList, "PyTorch".toList, "OpenCV".toList, "Hugging Face Transformers".toList],
   ["TensorFlow Developer Certificate".toList, "AI For Everyone by Andrew Ng".toList]⟩),
  ("ML Engineer", ⟨["Python".toList, "Scikit-learn".toList, "Machine Learning".toList,
    "Deep Learning".toList, "Data Engineering".toList],
   ["TensorFlow".toList, "PyTorch".toList, "Keras".toList, "Airflow".toList, "Docker".toList],
   ["AWS Machine Learning Specialty".toList, "TensorFlow Developer Certificate".toList]⟩),
  ("Software Engineer", ⟨["Java".toList, "Python".toList, "C++".toList, "Algorithms".toList,
    "Data Structures".toList],
   ["Git".toList, "VS Code".toList, "Jira".toList, "Docker".toList],
   ["Oracle Java Certification".toList, "AWS Certified Developer".toList]⟩),
  ("DevOps Engineer", ⟨["CI/CD".toList, "Automation".toList, "Cloud".toList, "Docker".toList,
    "Kubernetes".toList],
   ["Jenkins".toList, "Docker".toList, "Kubernetes".toList, "Terraform".toList, "Git".toList],
   ["AWS DevOps Engineer".toList, "Docker Certified Associate".toList]⟩),
  ("Cloud Engineer", ⟨["AWS".toList, "Azure".toList, "GCP".toList, "Networking".toList,
    "Cloud Architecture".toList],
   ["Terraform".toList, "Ansible".toList, "Kubernetes".toList, "Docker".toList],
   ["AWS Solutions Architect".toList, "Google Cloud Professional".toList]⟩),
  ("Cybersecurity Analyst", ⟨["Network Security".toList, "Penetration Testing".toList,
    "Incident Response".toList, "Threat Analysis".toList],
   ["Wireshark".toList, "Nmap".toList, "Metasploit".toList, "Splunk".toList],
   ["CEH".toList, "CISSP".toList, "CompTIA Security+".toList]⟩),
  ("Business Analyst", ⟨["Requirement Analysis".toList, "SQL".toList,
    "Data Visualization".toList, "Documentation".toList],
   ["Excel".toList, "Power BI".toList, "Tableau".toList, "Jira".toList],
   ["CBAP".toList, "IIBA Certification".toList]⟩),
  ("Product Manager", ⟨["Roadmap Planning".toList, "Market Research".toList,
    "User Stories".toList, "Stakeholder Management".toList],
   ["Jira".toList, "Trello".toList, "Aha!".toList, "Miro".toList],
   ["Certified Scrum Product Owner".toList, "PMP".toList]⟩),
  ("QA Engineer", ⟨["Test Automation".toList, "Manual Testing".toList, "Selenium".toList,
    "Performance Testing".toList],
   ["Selenium".toList, "Jira".toList, "Postman".toList, "TestRail".toList],
   ["ISTQB Foundation".toList, "Certified Software Tester".toList]⟩)]

/-- The values main computes for one uploaded resume and one selected
role, in order of computation. -/
structure AnalysisResult where
  extracted_skills : List PyStr
  extracted_tools : List PyStr
  extracted_certs : List PyStr
  skill_score : ℚ
  tool_score : ℚ
  cert_score : ℚ
  semantic_score : ℚ
  overall : ℚ
  missing_skills : List PyStr
  missing_tools : List PyStr
  missing_certs : List PyStr
  suggestions : List PyStr
  verdict_label : Verdict
  radar_values : List ℚ
  radar_categories : List PyStr
deriving DecidableEq

/-- One complete analysis of main (app_clean.py lines 117-184) for a
given lowercased resume text, semantic score (the external embedding
model, a black box per the spec), and selected role profile.  Returns
the displayed values together with the role profile as it stands after
the run: the radar-chart section binds categories to the skills list
of the profile by reference and extends it in place with its own first
element (lines 173 and 176), so the returned profile has
skills ++ skills.take 1 where the Python source mutates the catalog
entry. -/
def run_analysis (resume_text : PyStr) (semantic : ℚ) (job_data : RoleProfile) :
    AnalysisResult × RoleProfile :=
  let extracted_skills := extract_items_from_text resume_text job_data.skills
  let extracted_tools := extract_items_from_text resume_text job_data.tools
  let extracted_certs := extract_items_from_text resume_text job_data.certifications
  let skill_score := calculate_match extracted_skills job_data.skills
  let tool_score := calculate_match extracted_tools job_data.tools
  let cert_score := calculate_match extracted_certs job_data.certifications
  let overall := overall_score skill_score tool_score cert_score semantic
  let missing_skills := missing_items extracted_skills job_data.skills
  let missing_tools := missing_items extracted_tools job_data.tools
  let missing_certs := missing_items extracted_certs job_data.certifications
  let suggestions := top_3_suggestions missing_skills missing_tools missing_certs
  let v := verdict overall
  let categories := job_data.skills
  let values := categories.map (fun sk => if sk ∈ extracted_skills then (1 : ℚ) else 0)
  let values2 := values ++ values.take 1
  let categories2 := categories ++ categories.take 1
  (⟨extracted_skills, extracted_tools, extracted_certs, skill_score, tool_score, cert_score,
    semantic, overall, missing_skills, missing_tools, missing_certs, suggestions, v,
    values2, categories2⟩,
   { job_data with skills := categories2 })

/-- One-character sample string used by concrete witnesses. -/
def chA : PyStr := ['a']

/-- One-character sample string used by concrete witnesses. -/
def chB : PyStr := ['b']

/-- Sample resume text for the fuzzy-match counterexample: the phrase
with its internal space removed, a single whitespace token. -/
def mlText : PyStr := "machinelearning".toList

/-- Sample multi-word candidate item for the fuzzy-match counterexample. -/
def mlItem : PyStr := "Machine Learning".toList

/-! Helper lemmas. -/

/-- The extraction loop is the membership filter over the item list. -/
theorem extractLoop_eq (text : PyStr) (l acc : List PyStr) :
    extractLoop text l acc
      = acc ++ l.filter (fun it => wholeWordSearch text (lowerStr it) || fuzzyOk text (lowerStr it)) := by
  induction l generalizing acc with
  | nil => simp [extractLoop]
  | cons item rest ih =>
    by_cases h1 : wholeWordSearch text (lowerStr item) = true
    · simp [extractLoop, h1, ih, List.filter_cons]
    · by_cases h2 : fuzzyOk text (lowerStr item) = true
      · simp [extractLoop, h1, h2, ih, List.filter_cons]
      · simp [extractLoop, h1, h2, ih, List.filter_cons]

/-- The deduplicated membership filter counts the set intersection. -/
theorem dedup_filter_card (e r : List PyStr) :
    (e.filter (fun x => decide (x ∈ r))).dedup.length = (e.toFinset ∩ r.toFinset).card := by
  rw [← List.card_toFinset]
  congr 1
  ext a
  simp [List.mem_toFinset, List.mem_filter, Finset.mem_inter]

/-- The distinct-common-element count is at most the length of the
required list. -/
theorem dedup_filter_le (e r : List PyStr) :
    (e.filter (fun x => decide (x ∈ r))).dedup.length ≤ r.length := by
  rw [dedup_filter_card]
  calc (e.toFinset ∩ r.toFinset).card ≤ r.toFinset.card :=
        Finset.card_le_card Finset.inter_subset_right
    _ = r.dedup.length := List.card_toFinset r
    _ ≤ r.length := (List.dedup_sublist r).length_le

/-- calculate_match always lands in the interval [0, 100]. -/
theorem cm_range_aux (e r : List PyStr) :
    0 ≤ calculate_match e r ∧ calculate_match e r ≤ 100 := by
  unfold calculate_match
  by_cases hr : r = []
  · simp [hr]
  · rw [if_neg hr]
    have hn : 0 < r.length := List.length_pos.mpr hr
    have hkn : (e.filter (fun x => decide (x ∈ r))).dedup.length ≤ r.length := dedup_filter_le e r
    constructor
    · positivity
    · have h1 : ((e.filter (fun x => decide (x ∈ r))).dedup.length : ℚ) / (r.length : ℚ) ≤ 1 := by
        rw [div_le_one (by exact_mod_cast hn)]
        exact_mod_cast hkn
      calc ((e.filter (fun x => decide (x ∈ r))).dedup.length : ℚ) / (r.length : ℚ) * 100
          ≤ 1 * 100 := by
            apply mul_le_mul_of_nonneg_right h1
            norm_num
        _ = 100 := by norm_num

/-- Filtering a duplicate-free list by membership in one of its
order-preserving subsequences recovers that subsequence. -/
theorem filter_mem_of_sublist_nodup :
    ∀ (required found : List PyStr), found.Sublist required → required.Nodup →
      required.filter (fun s => decide (s ∈ found)) = found
  | [], found, h1, _ => by simp [List.sublist_nil.mp h1]
  | _ :: _, [], _, _ => by simp
  | a :: l₂, b :: l₁, h1, h2 => by
    have hnd := List.nodup_cons.mp h2
    cases h1 with
    | cons _ h =>
      have ha : a ∉ b :: l₁ := fun hmem => hnd.1 (h.subset hmem)
      rw [List.filter_cons_of_neg (by simpa using ha)]
      exact filter_mem_of_sublist_nodup l₂ (b :: l₁) h hnd.2
    | cons₂ _ h =>
      have step : List.filter (fun s => decide (s ∈ a :: l₁)) l₂
          = List.filter (fun s => decide (s ∈ l₁)) l₂ := by
        apply List.filter_congr
        intro x hx
        have hxa : x ≠ a := fun he => hnd.1 (he ▸ hx)
        simp [hxa]
      rw [List.filter_cons_of_pos (by simp), step,
        filter_mem_of_sublist_nodup l₂ l₁ h hnd.2]

/-- A Bool predicate splits the length of a list between the filter by
the predicate and the filter by its negation. -/
theorem filter_length_split {α : Type} (p : α → Bool) (l : List α) :
    (l.filter p).length + (l.filter (fun a => !(p a))).length = l.length := by
  induction l with
  | nil => rfl
  | cons a l ih =>
    by_cases h : p a = true
    · simp only [List.filter_cons, h]
      simp [← ih]
      omega
    · have h2 : p a = false := by simpa using h
      simp only [List.filter_cons, h2]
      simp [← ih]
      omega

/-! Claim theorems. -/

/-- C1: the claim says one complete analysis leaves the selected
RoleProfile unchanged.  The code violates it: the radar-chart section
of main aliases the skills list of the catalog entry and extends it in
place with its own first element, so after an analysis of the Data
Scientist role the skills list has gained a trailing duplicate of
Python (8 entries instead of 7), while tools and certifications are
unchanged.  Evaluated here at the concrete failing input: resume text
empty, semantic score 0, role Data Scientist. -/
theorem role_catalog_mutated :
    ("Data Scientist", dataScientistProfile) ∈ JOB_ROLE_DATA
    ∧ (run_analysis [] 0 dataScientistProfile).2.skills
        = dataScientistProfile.skills ++ ["Python".toList]
    ∧ (run_analysis [] 0 dataScientistProfile).2.skills ≠ dataScientistProfile.skills
    ∧ (run_analysis [] 0 dataScientistProfile).2.tools = dataScientistProfile.tools
    ∧ (run_analysis [] 0 dataScientistProfile).2.certifications
        = dataScientistProfile.certifications := by
  refine ⟨by decide, by decide, by decide, by decide, by decide⟩

/-- C2 counterexample: the claim says a whitespace-containing
candidate is never accepted through the fuzzy fallback.  False: for
the text machinelearning and the multi-word candidate Machine
Learning, the exact whole-phrase search fails, yet the candidate is
reported present, accepted by the similarity-ratio comparison against
the single whitespace token (ratio 30/31, at least 0.8). -/
theorem multiword_fuzzy_counterexample :
    (' ' ∈ mlItem)
    ∧ wholeWordSearch mlText (lowerStr mlItem) = false
    ∧ extract_items_from_text mlText [mlItem] = [mlItem] := by
  refine ⟨by decide, by decide, by decide⟩

/-- C2 amended: the fuzzy fallback can accept a candidate, including
a multi-word one: whenever the exact whole-word search fails but some
whitespace-split token of the text reaches similarity ratio 0.8
against the lowercased candidate, the candidate is reported present. -/
theorem multiword_fuzzy_amended (text item : PyStr)
    (hexact : wholeWordSearch text (lowerStr item) = false)
    (hfuzzy : (pysplit text).any (fun tok => ratioGeCutoff tok (lowerStr item)) = true) :
    extract_items_from_text text [item] = [item] := by
  simp [extract_items_from_text, extractLoop, hexact, fuzzyOk, hfuzzy]

/-- C2 amended witness: the concrete multi-word instance. -/
theorem multiword_fuzzy_amended_witness :
    extract_items_from_text mlText [mlItem] = [mlItem] :=
  multiword_fuzzy_amended mlText mlItem (by decide) (by decide)

/-- C3: extract_items_from_text returns the order-preserving
subsequence of the candidate list consisting of the candidates whose
lowercased form occurs in the text as a whole-word match (special
characters literal), or for which some whitespace-split token of the
text reaches similarity ratio 0.8 against the lowercased candidate
(equivalently: the single closest token does).  Each candidate
occurrence contributes at most one output occurrence.  In the
pipeline the text argument is already lowercased by the extractor. -/
theorem extract_items_characterization (text : PyStr) (cs : List PyStr) :
    extract_items_from_text text cs
      = cs.filter (fun c => wholeWordSearch text (lowerStr c) ||
          (pysplit text).any (fun tok => ratioGeCutoff tok (lowerStr c)))
    ∧ (extract_items_from_text text cs).Sublist cs := by
  have he : extract_items_from_text text cs
      = cs.filter (fun c => wholeWordSearch text (lowerStr c) || fuzzyOk text (lowerStr c)) := by
    simpa using extractLoop_eq text cs []
  constructor
  · simpa [fuzzyOk] using he
  · rw [he]
    exact List.filter_sublist _

/-- C4: calculate_match equals the distinct-set-intersection formula
when required is nonempty and 0 when required is empty; in
particular the empty case is a defined value, not a division error. -/
theorem calculate_match_spec (found required : List PyStr) :
    calculate_match found required
      = if required = [] then 0
        else ((found.toFinset ∩ required.toFinset).card : ℚ) / (required.length : ℚ) * 100 := by
  unfold calculate_match
  by_cases hr : required = []
  · simp [hr]
  · rw [if_neg hr, if_neg hr, dedup_filter_card]

/-- C5 counterexample: the claim asserts categoryScore(required,
required) = 100 for every non-empty required list.  False when
required contains duplicates: the numerator counts distinct common
elements while the denominator counts list entries, so the duplicated
singleton scores 50. -/
theorem calculate_match_duplicate_counterexample :
    ([chA, chA] : List PyStr) ≠ []
    ∧ calculate_match [chA, chA] [chA, chA] = 50
    ∧ calculate_match [chA, chA] [chA, chA] ≠ 100 := by
  have hk : (([chA, chA] : List PyStr).filter
      (fun x => decide (x ∈ ([chA, chA] : List PyStr)))).dedup.length = 1 := by decide
  have hv : calculate_match [chA, chA] [chA, chA] = 50 := by
    unfold calculate_match
    rw [if_neg (by decide), hk]
    norm_num
  refine ⟨by decide, hv, by rw [hv]; norm_num⟩

/-- C5 amended: for every non-empty required list the score is within
[0, 100] for every found list, and for duplicate-free non-empty
required the self score is exactly 100. -/
theorem calculate_match_self_range (required : List PyStr) (h : required ≠ []) :
    (∀ found, 0 ≤ calculate_match found required ∧ calculate_match found required ≤ 100)
    ∧ (required.Nodup → calculate_match required required = 100) := by
  constructor
  · intro found
    exact cm_range_aux found required
  · intro hnd
    unfold calculate_match
    rw [if_neg h]
    have h1 : required.filter (fun x => decide (x ∈ required)) = required :=
      List.filter_eq_self.mpr (fun a ha => by simpa using ha)
    rw [h1, List.dedup_eq_self.mpr hnd]
    have hn : (required.length : ℚ) ≠ 0 :=
      Nat.cast_ne_zero.mpr (List.length_pos.mpr h).ne'
    rw [div_self hn, one_mul]

/-- C5 amended witness: the singleton list scores 100 against itself. -/
theorem calculate_match_self_range_witness :
    calculate_match [chA] [chA] = 100 :=
  (calculate_match_self_range [chA] (by decide)).2 (by decide)

/-- C6: the overall score is the fixed weighted combination
0.4, 0.2, 0.1, 0.3 of the four category percentages, and lies in
[0, 100] whenever all four inputs do. -/
theorem overall_score_spec (s t c m : ℚ) :
    overall_score s t c m = 0.4 * s + 0.2 * t + 0.1 * c + 0.3 * m
    ∧ (0 ≤ s → s ≤ 100 → 0 ≤ t → t ≤ 100 → 0 ≤ c → c ≤ 100 → 0 ≤ m → m ≤ 100 →
        0 ≤ overall_score s t c m ∧ overall_score s t c m ≤ 100) := by
  refine ⟨rfl, ?_⟩
  intro hs0 hs1 ht0 ht1 hc0 hc1 hm0 hm1
  unfold overall_score
  constructor <;> nlinarith

/-- C6 witness: the weighted combination at 50, 50, 50, 50. -/
theorem overall_score_spec_witness :
    overall_score 50 50 50 50 = 0.4 * 50 + 0.2 * 50 + 0.1 * 50 + 0.3 * 50
    ∧ (0 ≤ overall_score 50 50 50 50 ∧ overall_score 50 50 50 50 ≤ 100) :=
  ⟨(overall_score_spec 50 50 50 50).1,
   (overall_score_spec 50 50 50 50).2 (by norm_num) (by norm_num) (by norm_num) (by norm_num)
     (by norm_num) (by norm_num) (by norm_num) (by norm_num)⟩

/-- C7: the verdict bands, with inclusive lower bounds: Excellent
exactly on scores at least 80, Moderate exactly on [60, 80), Weak
exactly below 60, including the four boundary evaluations of the
claim. -/
theorem verdict_bands (x : ℚ) :
    (verdict x = Verdict.excellent ↔ 80 ≤ x)
    ∧ (verdict x = Verdict.moderate ↔ 60 ≤ x ∧ x < 80)
    ∧ (verdict x = Verdict.weak ↔ x < 60)
    ∧ verdict 80 = Verdict.excellent
    ∧ verdict 79.99 = Verdict.moderate
    ∧ verdict 60 = Verdict.moderate
    ∧ verdict 59.99 = Verdict.weak := by
  refine ⟨?_, ?_, ?_, by norm_num [verdict], by norm_num [verdict], by norm_num [verdict],
    by norm_num [verdict]⟩
  · unfold verdict
    split_ifs with h1 h2
    · simpa using h1
    · simp [h1]
    · simp [h1]
  · unfold verdict
    split_ifs with h1 h2
    · simp [not_lt.mpr h1]
    · simp [h2, not_le.mp h1]
    · simp [h2]
  · unfold verdict
    split_ifs with h1 h2
    · simp [show ¬ x < 60 from not_lt.mpr (by linarith)]
    · simp [not_lt.mpr h2]
    · simp [not_le.mp h2]

/-- C8 counterexample: the claim asserts that for every found list
contained in required, found and missingItems(found, required)
partition required.  False when required contains duplicates: with
found the singleton and required its doubling, the missing list is
empty, so the two lists cannot reassemble required (their total
length is 1, not 2). -/
theorem missing_items_counterexample :
    ([chA] : List PyStr).Sublist [chA, chA]
    ∧ ([chA] : List PyStr) ⊆ [chA, chA]
    ∧ missing_items [chA] [chA, chA] = []
    ∧ ¬ (([chA] ++ missing_items [chA] [chA, chA]).Perm [chA, chA]) := by
  refine ⟨(List.nil_sublist [chA]).cons₂ chA, ?_, by decide, ?_⟩
  · intro x hx
    exact List.mem_cons_of_mem chA hx
  · intro hp
    have hlen := hp.length_eq
    simp [missing_items] at hlen

/-- C8 amended: when found is an order-preserving subsequence of a
duplicate-free required list, missingItems(found, required) is an
order-preserving subsequence of required, shares no element with
found, the two lengths add up to that of required, and every required
element is in exactly one of the two lists. -/
theorem missing_items_partition (found required : List PyStr)
    (h1 : found.Sublist required) (h2 : required.Nodup) :
    (missing_items found required).Sublist required
    ∧ (∀ x, x ∈ found → x ∉ missing_items found required)
    ∧ found.length + (missing_items found required).length = required.length
    ∧ (∀ x, x ∈ required ↔ (x ∈ found ∨ x ∈ missing_items found required)) := by
  refine ⟨List.filter_sublist _, ?_, ?_, ?_⟩
  · intro x hxf hxm
    have hx2 := (List.mem_filter.mp hxm).2
    simp at hx2
    exact hx2 hxf
  · have hfl : required.filter (fun s => decide (s ∈ found)) = found :=
      filter_mem_of_sublist_nodup required found h1 h2
    have hsplit := filter_length_split (fun s => decide (s ∈ found)) required
    have hnot : required.filter (fun a => !(decide (a ∈ found))) = missing_items found required := by
      unfold missing_items
      apply List.filter_congr
      intro a _
      simp
    rw [hfl, hnot] at hsplit
    exact hsplit
  · intro x
    constructor
    · intro hx
      by_cases hxf : x ∈ found
      · exact Or.inl hxf
      · exact Or.inr (List.mem_filter.mpr ⟨hx, by simpa using hxf⟩)
    · rintro (hxf | hxm)
      · exact h1.subset hxf
      · exact (List.filter_sublist _).subset hxm

/-- C8 amended witness: the partition lengths at found the singleton
of a and required the two-element list of a and b. -/
theorem missing_items_partition_witness :
    ([chA] : List PyStr).length + (missing_items [chA] [chA, chB]).length
      = ([chA, chB] : List PyStr).length :=
  (missing_items_partition [chA] [chA, chB]
    ((List.nil_sublist [chB]).cons₂ chA) (by decide)).2.2.1

/-- C9 counterexample: the claim asserts the sentinel is returned iff
all three missing lists are empty.  False on the value level: when a
missing list itself consists of exactly the sentinel string, the
truncated concatenation equals the sentinel singleton although the
lists are not all empty. -/
theorem top_3_sentinel_counterexample :
    top_3_suggestions [sentinelMsg] [] [] = [sentinelMsg]
    ∧ ([sentinelMsg] : List PyStr) ≠ [] := by
  refine ⟨by decide, by decide⟩

/-- C9 amended: top_3_suggestions returns the three-truncated
concatenation (skills, tools, certifications order) when the
concatenation is nonempty, the sentinel singleton when it is empty,
never more than 3 items; and it returns exactly the sentinel
singleton iff all three lists are empty or the truncated
concatenation itself equals the sentinel singleton. -/
theorem top_3_suggestions_spec (ms mt mc : List PyStr) :
    (top_3_suggestions ms mt mc).length ≤ 3
    ∧ top_3_suggestions ms mt mc
        = (if ms ++ mt ++ mc = [] then [sentinelMsg] else (ms ++ mt ++ mc).take 3)
    ∧ (top_3_suggestions ms mt mc = [sentinelMsg]
        ↔ (ms = [] ∧ mt = [] ∧ mc = []) ∨ (ms ++ mt ++ mc).take 3 = [sentinelMsg]) := by
  unfold top_3_suggestions
  by_cases h : ms ++ mt ++ mc = []
  · have h3 := List.append_eq_nil.mp h
    have h4 := List.append_eq_nil.mp h3.1
    simp [h4.1, h4.2, h3.2]
  · rw [if_neg h]
    refine ⟨List.length_take_le 3 _, rfl, ?_⟩
    constructor
    · intro ht
      exact Or.inr ht
    · rintro (⟨e1, e2, e3⟩ | hr)
      · exact absurd (by simp [e1, e2, e3]) h
      · exact hr

/-- C10: calculate_match is total and safe for arbitrary inputs, with
no subset precondition and duplicates and foreign items permitted:
the distinct-common-element count never exceeds the required length,
the result always lies in [0, 100], and the empty required list gives
0 rather than a division error. -/
theorem calculate_match_safety (e r : List PyStr) :
    (e.filter (fun x => decide (x ∈ r))).dedup.length ≤ r.length
    ∧ 0 ≤ calculate_match e r ∧ calculate_match e r ≤ 100
    ∧ (r = [] → calculate_match e r = 0) := by
  refine ⟨dedup_filter_le e r, (cm_range_aux e r).1, (cm_range_aux e r).2, ?_⟩
  intro hr
  simp [calculate_match, hr]
